import Mathlib

/-!
Shallow embedding of the station data reconciliation and derived-metrics
pipeline of the Tokyo bike-status web application (files `app.py` and
`tokyo_helpers.py`).

DataFrame rows of the two feeds are modelled as typed records; DataFrame
operations (`filter`, `drop_duplicates`, `merge`, `nlargest`) are modelled by
the corresponding list operations with pandas' documented semantics.  The
hidden stream of pseudo-random numbers consumed by `random.randint` is an
explicit parameter (`rand : Nat → Nat`), and `random.randint(0, capacity)`
is modelled as an arbitrary draw reduced into the closed range
`[0, capacity]`.
-/

/-- A row of the station-status feed, as loaded by
`pd.DataFrame(data['data']['stations'])` in `query_station_status`
(`tokyo_helpers.py`).  `last_reported` is the raw Unix timestamp. -/
structure StationStatus where
  station_id : String
  is_renting : Bool
  is_returning : Bool
  is_installed : Bool
  num_bikes_available : Nat
  num_docks_available : Nat
  last_reported : Nat
deriving DecidableEq, Repr

/-- A row of the station-information feed, as loaded by `get_station_latlon`
(`tokyo_helpers.py`).  `region_id` may be absent in the feed. -/
structure StationInfo where
  station_id : String
  name : String
  lat : ℚ
  lon : ℚ
  capacity : Nat
  region_id : Option String
deriving DecidableEq, Repr

/-- The dedup key used by `df.drop_duplicates(['station_id', 'last_reported'])`
in `query_station_status`. -/
def dedupKey (r : StationStatus) : String × Nat :=
  (r.station_id, r.last_reported)

/-- `df.drop_duplicates(['station_id', 'last_reported'])` with pandas'
default `keep='first'`: a row is kept iff its `(station_id, last_reported)`
pair has not been seen earlier in the frame.  `seen` accumulates the keys of
the rows already kept. -/
def drop_duplicates_aux (seen : List (String × Nat)) :
    List StationStatus → List StationStatus
  | [] => []
  | r :: rest =>
    if dedupKey r ∈ seen then drop_duplicates_aux seen rest
    else r :: drop_duplicates_aux (dedupKey r :: seen) rest

/-- `df.drop_duplicates(['station_id', 'last_reported'])` on a whole frame. -/
def drop_duplicates (l : List StationStatus) : List StationStatus :=
  drop_duplicates_aux [] l

/-- The row-shaping part of `query_station_status` (`tokyo_helpers.py`,
lines 18-21): keep rows with `is_renting == True`, then rows with
`is_returning == True`, then drop duplicate `(station_id, last_reported)`
pairs.  (The trailing timestamp-conversion and re-indexing lines only change
the representation of `last_reported`, not which rows survive.) -/
def query_station_status (stations : List StationStatus) : List StationStatus :=
  drop_duplicates ((stations.filter (fun r => r.is_renting)).filter
    (fun r => r.is_returning))

section DropDuplicatesLemmas

theorem drop_duplicates_aux_sublist (seen : List (String × Nat)) :
    ∀ l : List StationStatus, (drop_duplicates_aux seen l).Sublist l := by
  intro l
  induction l generalizing seen with
  | nil => simp [drop_duplicates_aux]
  | cons r rest ih =>
    by_cases h : dedupKey r ∈ seen
    · simp only [drop_duplicates_aux, if_pos h]
      exact (ih seen).cons r
    · simp only [drop_duplicates_aux, if_neg h]
      exact (ih (dedupKey r :: seen)).cons₂ r

theorem mem_drop_duplicates_aux_not_seen {seen : List (String × Nat)}
    {l : List StationStatus} {r : StationStatus}
    (h : r ∈ drop_duplicates_aux seen l) : dedupKey r ∉ seen := by
  induction l generalizing seen with
  | nil => simp [drop_duplicates_aux] at h
  | cons a rest ih =>
    by_cases ha : dedupKey a ∈ seen
    · simp only [drop_duplicates_aux, if_pos ha] at h
      exact ih h
    · simp only [drop_duplicates_aux, if_neg ha, List.mem_cons] at h
      rcases h with rfl | h
      · exact ha
      · intro hseen
        exact ih h (List.mem_cons_of_mem _ hseen)

theorem drop_duplicates_aux_pairwise (seen : List (String × Nat)) :
    ∀ l : List StationStatus,
      (drop_duplicates_aux seen l).Pairwise (fun a b => dedupKey a ≠ dedupKey b) := by
  intro l
  induction l generalizing seen with
  | nil => simp [drop_duplicates_aux]
  | cons r rest ih =>
    by_cases h : dedupKey r ∈ seen
    · simp only [drop_duplicates_aux, if_pos h]
      exact ih seen
    · simp only [drop_duplicates_aux, if_neg h]
      refine List.Pairwise.cons ?_ (ih (dedupKey r :: seen))
      intro b hb hkey
      exact mem_drop_duplicates_aux_not_seen hb (by simp [hkey])

theorem drop_duplicates_aux_complete {seen : List (String × Nat)}
    {l : List StationStatus} {r : StationStatus}
    (hr : r ∈ l) (hseen : dedupKey r ∉ seen) :
    ∃ r', r' ∈ drop_duplicates_aux seen l ∧ dedupKey r' = dedupKey r := by
  induction l generalizing seen with
  | nil => cases hr
  | cons a rest ih =>
    rcases List.mem_cons.mp hr with rfl | hr'
    · by_cases ha : dedupKey r ∈ seen
      · exact absurd ha hseen
      · exact ⟨r, by simp [drop_duplicates_aux, if_neg ha], rfl⟩
    · by_cases ha : dedupKey a ∈ seen
      · simp only [drop_duplicates_aux, if_pos ha]
        exact ih hr' hseen
      · simp only [drop_duplicates_aux, if_neg ha]
        by_cases hk : dedupKey r = dedupKey a
        · exact ⟨a, List.mem_cons_self _ _, hk.symm⟩
        · obtain ⟨r', hr'mem, hr'key⟩ :=
            @ih (dedupKey a :: seen) hr' (by simp [hseen, fun h => hk h])
          exact ⟨r', List.mem_cons_of_mem _ hr'mem, hr'key⟩

end DropDuplicatesLemmas

/-- A row of `stations_base` (`app.py`, line 71):
`station_status_df.merge(station_info_df, on="station_id", how="left")`.
The info-side columns are `Option`-valued because pandas fills them with
`NaN`/null on status rows whose `station_id` has no match in the
information frame. -/
structure MergedRow where
  station_id : String
  is_renting : Bool
  is_returning : Bool
  is_installed : Bool
  num_bikes_available : Nat
  num_docks_available : Nat
  last_reported : Nat
  name : Option String
  lat : Option ℚ
  lon : Option ℚ
  capacity : Option Nat
  region_id : Option String
deriving DecidableEq, Repr

/-- The merged row for a status row with no match in the information frame:
all info-side columns are null. -/
def mkUnmatched (s : StationStatus) : MergedRow :=
  { station_id := s.station_id, is_renting := s.is_renting,
    is_returning := s.is_returning, is_installed := s.is_installed,
    num_bikes_available := s.num_bikes_available,
    num_docks_available := s.num_docks_available,
    last_reported := s.last_reported,
    name := none, lat := none, lon := none, capacity := none,
    region_id := none }

/-- The merged row combining a status row with a matching information row. -/
def mkMatched (s : StationStatus) (i : StationInfo) : MergedRow :=
  { station_id := s.station_id, is_renting := s.is_renting,
    is_returning := s.is_returning, is_installed := s.is_installed,
    num_bikes_available := s.num_bikes_available,
    num_docks_available := s.num_docks_available,
    last_reported := s.last_reported,
    name := some i.name, lat := some i.lat, lon := some i.lon,
    capacity := some i.capacity, region_id := i.region_id }

/-- `station_status_df.merge(station_info_df, on="station_id", how="left")`
(`app.py`, lines 46 and 71): for each status row in order, one output row
per matching information row (in information-frame order); a status row with
no match yields a single row with null info columns. -/
def merge_status_info (status : List StationStatus) (info : List StationInfo) :
    List MergedRow :=
  status.flatMap fun s =>
    match info.filter (fun i => i.station_id = s.station_id) with
    | [] => [mkUnmatched s]
    | ms => ms.map (mkMatched s)

/-- The status-side fields of a merged row, for stating that the left merge
keeps the left frame's rows and order. -/
def MergedRow.statusPart (r : MergedRow) : StationStatus :=
  { station_id := r.station_id, is_renting := r.is_renting,
    is_returning := r.is_returning, is_installed := r.is_installed,
    num_bikes_available := r.num_bikes_available,
    num_docks_available := r.num_docks_available,
    last_reported := r.last_reported }

/-- A fully materialized station record held in
`st.session_state.stations` (`app.py`, lines 79-85): the merged row plus the
synthetic `bikes_available`/`docks_available` and the unconditionally
overwritten operational flags. -/
structure StationRecord where
  station_id : String
  name : Option String
  lat : Option ℚ
  lon : Option ℚ
  capacity : Nat
  region_id : Option String
  bikes_available : Nat
  docks_available : Nat
  is_renting : Bool
  is_returning : Bool
  is_installed : Bool
deriving DecidableEq, Repr

/-- `get_random_availability(capacity)` (`app.py`, lines 48-50), i.e.
`random.randint(0, capacity)`: an arbitrary draw `r` from the hidden random
stream, reduced into the closed range `[0, capacity]`. -/
def get_random_availability (r : Nat) (capacity : Nat) : Nat :=
  r % (capacity + 1)

/-- One loop body of the snapshot generation (`app.py`, lines 80-84):
draws `bikes_available`, derives `docks_available = capacity -
bikes_available`, and overwrites the three operational flags with `True`.
Returns `none` when the row's `capacity` is null (an unmatched status row),
where the Python `random.randint(0, nan)` raises and no record is
produced. -/
def assign_availability (r : Nat) (row : MergedRow) : Option StationRecord :=
  match row.capacity with
  | none => none
  | some cap =>
    let bikes := get_random_availability r cap
    some { station_id := row.station_id, name := row.name, lat := row.lat,
           lon := row.lon, capacity := cap, region_id := row.region_id,
           bikes_available := bikes, docks_available := cap - bikes,
           is_renting := true, is_returning := true, is_installed := true }

/-- The `for station in stations_base` loop (`app.py`, lines 79-85 and
337-343), consuming one draw of the random stream per station, starting at
stream index `i`. -/
def materialize_from (rand : Nat → Nat) (i : Nat) :
    List MergedRow → Option (List StationRecord)
  | [] => some []
  | row :: rest =>
    match assign_availability (rand i) row, materialize_from rand (i + 1) rest with
    | some sr, some others => some (sr :: others)
    | _, _ => none

/-- One full pass of the Synthetic Availability Generator over the
reconciled station list. -/
def materialize (rand : Nat → Nat) (rows : List MergedRow) :
    Option (List StationRecord) :=
  materialize_from rand 0 rows

/-- The per-session state held in `st.session_state` (`app.py`, lines
76-85): the materialized station list plus `last_update`.  `last_update` is
modelled as an abstract clock reading (`Nat`). -/
structure Session where
  last_update : Nat
  stations : List StationRecord
deriving DecidableEq, Repr

/-- The snapshot read: the `if 'last_update' not in st.session_state` guard
(`app.py`, line 76) followed by the page read of
`st.session_state.stations`.  `none` as input state is Uninitialized; a
Materialized state is returned unchanged without consuming the feeds or the
random stream.  The result is `none` only when first materialization fails
(null capacity). -/
def getSnapshot (now : Nat) (rand : Nat → Nat) (base : List MergedRow) :
    Option Session → Option (List StationRecord × Option Session)
  | some sess => some (sess.stations, some sess)
  | none =>
    match materialize rand base with
    | some snap => some (snap, some ⟨now, snap⟩)
    | none => none

/-- The "Refresh Data" button handler (`app.py`, lines 334-345): rebuilds
the station list from `stations_base` with fresh random draws and replaces
the stored snapshot wholesale, updating `last_update`.  It does not read
the previous session state and does not touch the network. -/
def refresh (now : Nat) (rand : Nat → Nat) (base : List MergedRow) :
    Option Session :=
  (materialize rand base).map fun snap => ⟨now, snap⟩

/-- `get_status_color` (`app.py`, lines 52-59). -/
def get_status_color (bikes_available : Nat) : String :=
  if bikes_available > 3 then "green"
  else if bikes_available > 0 then "orange"
  else "red"

/-- `get_marker_color` (`tokyo_helpers.py`, lines 49-56). -/
def get_marker_color (num_bikes_available : Nat) : String :=
  if num_bikes_available > 3 then "green"
  else if 0 < num_bikes_available ∧ num_bikes_available ≤ 3 then "yellow"
  else "red"

/-- `round(x, 2)` on the exact rational value: scale by `10^2`, round to the
nearest integer, scale back.  (Python rounds binary floats and breaks exact
ties to even; on the exact values used here the two agree away from ties.) -/
def round2 (q : ℚ) : ℚ :=
  (round (q * 100) : ℤ) / 100

/-- `calculate_utilization` (`app.py`, lines 65-69):
`0` when `capacity == 0`, else `round((bikes_available / capacity) * 100, 2)`. -/
def calculate_utilization (bikes_available capacity : Nat) : ℚ :=
  if capacity = 0 then 0
  else round2 ((bikes_available : ℚ) / (capacity : ℚ) * 100)

/-- Stable insertion into a list already sorted descending by `key`: the new
element is placed before the first element whose key is `≤` its own, so an
earlier-input element precedes later-input elements with an equal key. -/
def insert_desc_by {α : Type} (key : α → Nat) (a : α) : List α → List α
  | [] => [a]
  | b :: bs =>
    if key b ≤ key a then a :: b :: bs else b :: insert_desc_by key a bs

/-- Stable descending sort by `key` (insertion sort). -/
def sort_desc_by {α : Type} (key : α → Nat) : List α → List α
  | [] => []
  | x :: xs => insert_desc_by key x (sort_desc_by key xs)

/-- `df.nlargest(n, column)` with pandas' default `keep='first'`: the first
`n` rows of the frame sorted descending by the column with ties kept in
frame order (pandas documents `nlargest` as equivalent to
`sort_values(column, ascending=False).head(n)` with first occurrences
prioritized). -/
def nlargest {α : Type} (n : Nat) (key : α → Nat) (l : List α) : List α :=
  (sort_desc_by key l).take n

/-- `top_bikes = df.nlargest(5, 'bikes_available')` (`app.py`, line 320),
generalized over `n`; the subsequent column selection does not change which
rows appear or their order. -/
def top_bikes (n : Nat) (l : List StationRecord) : List StationRecord :=
  nlargest n (fun s => s.bikes_available) l

/-- `top_docks = df.nlargest(5, 'docks_available')` (`app.py`, line 325),
generalized over `n`. -/
def top_docks (n : Nat) (l : List StationRecord) : List StationRecord :=
  nlargest n (fun s => s.docks_available) l

/-- A JSON document, as produced by `json.loads`. -/
inductive Json where
  | null : Json
  | bool : Bool → Json
  | num : ℚ → Json
  | str : String → Json
  | arr : List Json → Json
  | obj : List (String × Json) → Json

/-- Field lookup on a JSON object; `none` when the document is not an
object or lacks the field (where Python's `data['data']` raises
`KeyError`/`TypeError`). -/
def Json.getField : Json → String → Option Json
  | .obj fields, k => fields.lookup k
  | _, _ => none

/-- The failure modes of the feed client: `fetchError` stands for the
exceptions `urllib.request.urlopen`/`json.loads` raise on network failure,
timeout, non-2xx or malformed JSON; `parseError` for the lookup failure of
`data['data']['stations']` on an unexpectedly shaped document. -/
inductive PipeError where
  | fetchError : PipeError
  | parseError : PipeError
deriving DecidableEq, Repr

/-- The `data['data']['stations']` extraction shared by
`query_station_status` and `get_station_latlon` (`tokyo_helpers.py`, lines
15-16 and 36-37): succeeds with the station list exactly when the document
has the expected `{data: {stations: [...]}}` shape, and fails (the Python
code raises, with no fallback) otherwise. -/
def parseStations (doc : Json) : Except PipeError (List Json) :=
  match doc.getField "data" with
  | none => .error .parseError
  | some d =>
    match d.getField "stations" with
    | some (.arr stations) => .ok stations
    | _ => .error .parseError

/-- The fetch-and-parse phase of the pipeline (`app.py`, lines 42-43):
`query_station_status(station_status_url)` runs first, then
`get_station_latlon(station_info_url)`.  Each network fetch outcome is an
input (`.ok doc` for a delivered document, `.error` for a raised fetch
failure); neither helper catches anything, so the first failure propagates
and no station lists are produced. -/
def fetch_pipeline (statusFetch infoFetch : Except PipeError Json) :
    Except PipeError (List Json × List Json) :=
  match statusFetch with
  | .error e => .error e
  | .ok sdoc =>
    match parseStations sdoc with
    | .error e => .error e
    | .ok slist =>
      match infoFetch with
      | .error e => .error e
      | .ok idoc =>
        match parseStations idoc with
        | .error e => .error e
        | .ok ilist => .ok (slist, ilist)

/-- C6: `calculate_utilization(bikes, capacity)` equals
`round(bikes / capacity * 100, 2)` whenever `capacity > 0` and equals `0`
when `capacity == 0` (never a division-by-zero error); in particular
`calculate_utilization 0 0 = 0`, `calculate_utilization 3 10 = 30.0` and
`calculate_utilization 10 10 = 100.0`. -/
theorem calculate_utilization_spec (bikes capacity : Nat) :
    (capacity = 0 → calculate_utilization bikes capacity = 0) ∧
    (0 < capacity →
      calculate_utilization bikes capacity =
        round2 ((bikes : ℚ) / (capacity : ℚ) * 100)) ∧
    calculate_utilization 0 0 = 0 ∧
    calculate_utilization 3 10 = 30 ∧
    calculate_utilization 10 10 = 100 := by
  refine ⟨fun h => by simp [calculate_utilization, h], fun h => ?_, ?_, ?_, ?_⟩
  · rw [calculate_utilization, if_neg (Nat.pos_iff_ne_zero.mp h)]
  · norm_num [calculate_utilization]
  · norm_num [calculate_utilization, round2, round_eq]
  · norm_num [calculate_utilization, round2, round_eq]

/-- Witness for `calculate_utilization_spec`: at `bikes = 3`,
`capacity = 10` the `capacity > 0` branch applies and yields the rounded
formula value. -/
theorem calculate_utilization_spec_witness :
    calculate_utilization 3 10 = round2 ((3 : ℚ) / (10 : ℚ) * 100) :=
  (calculate_utilization_spec 3 10).2.1 (by decide)

/-- C7: the status classification is `ok`/green when `bikes > 3`,
`low` (orange on the dashboard, yellow on map markers) when
`0 < bikes <= 3`, and `empty`/red when `bikes == 0`, in both
`get_status_color` (`app.py`) and `get_marker_color` (`tokyo_helpers.py`),
with the threshold `3` fixed; in particular `get_status_color 4 = green`,
`get_status_color 1 = orange` and `get_status_color 0 = red`. -/
theorem status_classification_spec (bikes : Nat) :
    (bikes > 3 →
      get_status_color bikes = "green" ∧ get_marker_color bikes = "green") ∧
    (0 < bikes ∧ bikes ≤ 3 →
      get_status_color bikes = "orange" ∧ get_marker_color bikes = "yellow") ∧
    (bikes = 0 →
      get_status_color bikes = "red" ∧ get_marker_color bikes = "red") ∧
    get_status_color 4 = "green" ∧ get_status_color 1 = "orange" ∧
    get_status_color 0 = "red" := by
  refine ⟨fun h => ?_, fun h => ?_, fun h => ?_, by decide, by decide, by decide⟩
  · constructor
    · rw [get_status_color, if_pos h]
    · rw [get_marker_color, if_pos h]
  · constructor
    · rw [get_status_color, if_neg (by omega), if_pos h.1]
    · rw [get_marker_color, if_neg (by omega), if_pos h]
  · subst h
    exact ⟨rfl, rfl⟩

/-- Witness for `status_classification_spec`: the three claimed example
inputs 4, 1 and 0 land in the green, orange/yellow and red classes. -/
theorem status_classification_spec_witness :
    (get_status_color 4 = "green" ∧ get_marker_color 4 = "green") ∧
    (get_status_color 1 = "orange" ∧ get_marker_color 1 = "yellow") ∧
    (get_status_color 0 = "red" ∧ get_marker_color 0 = "red") :=
  ⟨(status_classification_spec 4).1 (by decide),
   (status_classification_spec 1).2.1 (by decide),
   (status_classification_spec 0).2.2.1 (by decide)⟩

section GeneratorLemmas

theorem assign_availability_ok {r : Nat} {row : MergedRow} {sr : StationRecord}
    (h : assign_availability r row = some sr) :
    sr.bikes_available ≤ sr.capacity ∧
    sr.bikes_available + sr.docks_available = sr.capacity ∧
    sr.is_renting = true ∧ sr.is_returning = true ∧ sr.is_installed = true ∧
    sr.station_id = row.station_id ∧ sr.name = row.name ∧
    sr.lat = row.lat ∧ sr.lon = row.lon ∧ some sr.capacity = row.capacity := by
  match hc : row.capacity with
  | none => simp [assign_availability, hc] at h
  | some cap =>
    simp only [assign_availability, hc, Option.some.injEq] at h
    subst h
    have hb : get_random_availability r cap ≤ cap :=
      Nat.lt_succ_iff.mp (Nat.mod_lt r (Nat.succ_pos cap))
    refine ⟨hb, ?_, rfl, rfl, rfl, rfl, rfl, rfl, rfl, rfl⟩
    exact Nat.add_sub_cancel' hb

theorem mem_materialize_from {rand : Nat → Nat} :
    ∀ {i : Nat} {rows : List MergedRow} {snap : List StationRecord},
      materialize_from rand i rows = some snap →
      ∀ sr ∈ snap, ∃ j row, row ∈ rows ∧ assign_availability (rand j) row = some sr := by
  intro i rows
  induction rows generalizing i with
  | nil =>
    intro snap h sr hsr
    simp only [materialize_from, Option.some.injEq] at h
    subst h
    cases hsr
  | cons row rest ih =>
    intro snap h sr hsr
    simp only [materialize_from] at h
    match h1 : assign_availability (rand i) row,
          h2 : materialize_from rand (i + 1) rest with
    | some sr0, some others =>
      rw [h1, h2] at h
      simp only [Option.some.injEq] at h
      subst h
      rcases List.mem_cons.mp hsr with rfl | hmem
      · exact ⟨i, row, List.mem_cons_self _ _, h1⟩
      · obtain ⟨j, row', hrow', hasn⟩ := ih h2 sr hmem
        exact ⟨j, row', List.mem_cons_of_mem _ hrow', hasn⟩
    | some sr0, none => rw [h1, h2] at h; cases h
    | none, _ => rw [h1] at h; cases h

theorem materialize_from_fields {rand : Nat → Nat} :
    ∀ {i : Nat} {rows : List MergedRow} {snap : List StationRecord},
      materialize_from rand i rows = some snap →
      snap.map (fun s => s.station_id) = rows.map (fun r => r.station_id) ∧
      snap.map (fun s => (some s.capacity : Option Nat)) =
        rows.map (fun r => r.capacity) ∧
      snap.map (fun s => s.name) = rows.map (fun r => r.name) ∧
      snap.map (fun s => s.lat) = rows.map (fun r => r.lat) ∧
      snap.map (fun s => s.lon) = rows.map (fun r => r.lon) := by
  intro i rows
  induction rows generalizing i with
  | nil =>
    intro snap h
    simp only [materialize_from, Option.some.injEq] at h
    subst h
    simp
  | cons row rest ih =>
    intro snap h
    simp only [materialize_from] at h
    match h1 : assign_availability (rand i) row,
          h2 : materialize_from rand (i + 1) rest with
    | some sr0, some others =>
      rw [h1, h2] at h
      simp only [Option.some.injEq] at h
      subst h
      obtain ⟨-, -, -, -, -, hid, hname, hlat, hlon, hcap⟩ :=
        assign_availability_ok h1
      obtain ⟨ih1, ih2, ih3, ih4, ih5⟩ := ih h2
      simp [List.map_cons, hid, hname, hlat, hlon, hcap, ih1, ih2, ih3, ih4, ih5]
    | some sr0, none => rw [h1, h2] at h; cases h
    | none, _ => rw [h1] at h; cases h

end GeneratorLemmas

/-- C2: every station record produced by one pass of the Synthetic
Availability Generator — the record's capacity being an integer, i.e. the
materialization succeeding — satisfies `bikes_available ≤ capacity`
(`0 ≤ bikes_available` holds since counts are naturals) and
`bikes_available + docks_available = capacity`, both at first
materialization and after every refresh. -/
theorem generator_availability_invariant (rand : Nat → Nat)
    (base : List MergedRow) :
    (∀ snap, materialize rand base = some snap →
      ∀ sr ∈ snap, sr.bikes_available ≤ sr.capacity ∧
        sr.bikes_available + sr.docks_available = sr.capacity) ∧
    (∀ now sess, refresh now rand base = some sess →
      ∀ sr ∈ sess.stations, sr.bikes_available ≤ sr.capacity ∧
        sr.bikes_available + sr.docks_available = sr.capacity) := by
  have key : ∀ snap, materialize rand base = some snap →
      ∀ sr ∈ snap, sr.bikes_available ≤ sr.capacity ∧
        sr.bikes_available + sr.docks_available = sr.capacity := by
    intro snap h sr hsr
    obtain ⟨j, row, -, hasn⟩ := mem_materialize_from h sr hsr
    obtain ⟨h1, h2, -⟩ := assign_availability_ok hasn
    exact ⟨h1, h2⟩
  refine ⟨key, fun now sess h => ?_⟩
  simp only [refresh] at h
  match hm : materialize rand base with
  | some snap =>
    rw [hm] at h
    simp only [Option.map_some', Option.some.injEq] at h
    subst h
    exact key snap hm
  | none => rw [hm] at h; cases h

/-- A concrete merged row used by witnesses: station `w1` with capacity 7
and all info columns present. -/
def demoRow : MergedRow :=
  { station_id := "w1", is_renting := true, is_returning := true,
    is_installed := true, num_bikes_available := 4, num_docks_available := 3,
    last_reported := 100, name := some "Shinjuku", lat := some 35,
    lon := some 139, capacity := some 7, region_id := some "r1" }

/-- A fixed pseudo-random stream used by witnesses. -/
def demoRand (i : Nat) : Nat := 5 * i + 9

/-- Witness for `generator_availability_invariant`: materializing the
one-row base `[demoRow]` with the stream `demoRand` succeeds, and the
produced record (bikes `9 % 8 = 1`, docks `6`) satisfies the invariant. -/
theorem generator_availability_invariant_witness :
    ∀ sr ∈ [{ station_id := "w1", name := some "Shinjuku", lat := some 35,
              lon := some 139, capacity := 7, region_id := some "r1",
              bikes_available := 1, docks_available := 6, is_renting := true,
              is_returning := true, is_installed := true : StationRecord }],
      sr.bikes_available ≤ sr.capacity ∧
      sr.bikes_available + sr.docks_available = sr.capacity :=
  (generator_availability_invariant demoRand [demoRow]).1 _ (by decide)

/-- C4: reading the snapshot is idempotent.  For a session already in the
Materialized state (`some sess`), `getSnapshot` returns the stored station
collection and leaves the state unchanged, and a second read — even with a
different clock reading, random stream and base list, none of which are
consulted — returns the same stations with identical `bikes_available`
values: no re-fetch and no re-randomization occurs. -/
theorem getSnapshot_idempotent_read (n₁ n₂ : Nat) (r₁ r₂ : Nat → Nat)
    (b₁ b₂ : List MergedRow) (sess : Session) :
    getSnapshot n₁ r₁ b₁ (some sess) = some (sess.stations, some sess) ∧
    getSnapshot n₂ r₂ b₂ (some sess) = some (sess.stations, some sess) :=
  ⟨rfl, rfl⟩

/-- C5: `refresh` re-randomizes availability over the existing reconciled
station list (`stations_base`) only.  Relative to any previously
materialized snapshot from the same base, the refreshed snapshot has the
same `station_id` list (hence the same multiset of ids) and pointwise the
same `capacity`, `name`, `lat` and `lon`; `last_update` becomes the refresh
time.  `refresh` takes only the reconciled base and the random stream — no
feed document — so no network re-fetch is performed. -/
theorem refresh_frame_conditions (now : Nat) (r r' : Nat → Nat)
    (base : List MergedRow) (prev : List StationRecord) (sess : Session)
    (h₁ : materialize r base = some prev)
    (h₂ : refresh now r' base = some sess) :
    sess.last_update = now ∧
    sess.stations.map (fun s => s.station_id) = prev.map (fun s => s.station_id) ∧
    sess.stations.map (fun s => s.capacity) = prev.map (fun s => s.capacity) ∧
    sess.stations.map (fun s => s.name) = prev.map (fun s => s.name) ∧
    sess.stations.map (fun s => s.lat) = prev.map (fun s => s.lat) ∧
    sess.stations.map (fun s => s.lon) = prev.map (fun s => s.lon) := by
  simp only [refresh] at h₂
  match hm : materialize r' base with
  | none => rw [hm] at h₂; cases h₂
  | some snap =>
    rw [hm] at h₂
    simp only [Option.map_some', Option.some.injEq] at h₂
    subst h₂
    obtain ⟨p1, p2, p3, p4, p5⟩ := materialize_from_fields h₁
    obtain ⟨q1, q2, q3, q4, q5⟩ := materialize_from_fields hm
    refine ⟨rfl, q1.trans p1.symm, ?_, q3.trans p3.symm,
      q4.trans p4.symm, q5.trans p5.symm⟩
    have hcap : snap.map (fun s => (some s.capacity : Option Nat)) =
        prev.map (fun s => (some s.capacity : Option Nat)) := q2.trans p2.symm
    have hmap := congrArg (List.map (fun o => Option.getD o 0)) hcap
    simpa [List.map_map, Function.comp] using hmap

/-- The record `materialize demoRand [demoRow]` produces for `w1`: bikes
`demoRand 0 % 8 = 1` and docks `6`. -/
def demoRec : StationRecord :=
  { station_id := "w1", name := some "Shinjuku", lat := some 35,
    lon := some 139, capacity := 7, region_id := some "r1",
    bikes_available := 1, docks_available := 6, is_renting := true,
    is_returning := true, is_installed := true }

/-- The snapshot `materialize demoRand [demoRow]` produces. -/
def demoPrev : List StationRecord := [demoRec]

/-- The session `refresh 42 (fun i => 3 * i + 2) [demoRow]` produces: the
`w1` record re-randomized to bikes `2 % 8 = 2` and docks `5`. -/
def demoSess : Session :=
  ⟨42, [{ station_id := "w1", name := some "Shinjuku", lat := some 35,
          lon := some 139, capacity := 7, region_id := some "r1",
          bikes_available := 2, docks_available := 5, is_renting := true,
          is_returning := true, is_installed := true }]⟩

/-- Witness for `refresh_frame_conditions`: refreshing the one-row base
`[demoRow]` at time 42 with a fresh stream keeps the id, capacity, name,
lat and lon of the previously materialized snapshot while the bikes count
changed from 1 to 2. -/
theorem refresh_frame_conditions_witness :
    demoSess.last_update = 42 ∧
    demoSess.stations.map (fun s => s.station_id) =
      demoPrev.map (fun s => s.station_id) ∧
    demoSess.stations.map (fun s => s.capacity) =
      demoPrev.map (fun s => s.capacity) ∧
    demoSess.stations.map (fun s => s.name) =
      demoPrev.map (fun s => s.name) ∧
    demoSess.stations.map (fun s => s.lat) =
      demoPrev.map (fun s => s.lat) ∧
    demoSess.stations.map (fun s => s.lon) =
      demoPrev.map (fun s => s.lon) :=
  refresh_frame_conditions 42 demoRand (fun i => 3 * i + 2) [demoRow]
    demoPrev demoSess (by decide) (by decide)

/-- Status record for station `s1` reported at timestamp 100. -/
def statusA : StationStatus := ⟨"s1", true, true, true, 5, 5, 100⟩

/-- A second status record for the same station `s1`, reported later (at
timestamp 200) with different counts. -/
def statusB : StationStatus := ⟨"s1", true, true, true, 2, 8, 200⟩

/-- C1 counterexample: on a status input with two records for `s1` whose
`last_reported` timestamps differ (100 and 200),
`df.drop_duplicates(['station_id', 'last_reported'])` keys on the pair, so
BOTH records survive `query_station_status` — not exactly one, and the
survivor set is not reduced to the latest-timestamped record.  The earlier
record `statusA` even comes first. -/
theorem query_station_status_dedup_cex :
    query_station_status [statusA, statusB] = [statusA, statusB] ∧
    ¬ ((query_station_status [statusA, statusB]).filter
        (fun r => r.station_id = "s1")).length = 1 := by decide

/-- C1 amended: the deduplication step keeps at most one record per
`(station_id, last_reported)` PAIR — not per `station_id`.  Precisely: the
output of `query_station_status` is a subsequence of the flag-filtered
input (first occurrences win, order preserved), no two output records share
both `station_id` and `last_reported`, and every flag-filtered input record
still has a representative with its `(station_id, last_reported)` pair in
the output.  Records sharing a `station_id` with different `last_reported`
all survive. -/
theorem query_station_status_dedup_amended (l : List StationStatus) :
    (query_station_status l).Sublist
      ((l.filter (fun r => r.is_renting)).filter (fun r => r.is_returning)) ∧
    (query_station_status l).Pairwise (fun a b => dedupKey a ≠ dedupKey b) ∧
    ∀ r ∈ (l.filter (fun r => r.is_renting)).filter (fun r => r.is_returning),
      ∃ r', r' ∈ query_station_status l ∧ dedupKey r' = dedupKey r := by
  refine ⟨drop_duplicates_aux_sublist [] _, drop_duplicates_aux_pairwise [] _,
    fun r hr => ?_⟩
  exact drop_duplicates_aux_complete hr (by simp)

/-- Witness for `query_station_status_dedup_amended`: in the two-record
input for `s1`, the record timestamped 200 has a surviving representative
with its dedup key. -/
theorem query_station_status_dedup_amended_witness :
    ∃ r', r' ∈ query_station_status [statusA, statusB] ∧
      dedupKey r' = dedupKey statusB :=
  (query_station_status_dedup_amended [statusA, statusB]).2.2 statusB (by decide)

/-- C10: `query_station_status` keeps only status records whose
`is_renting` and `is_returning` flags are `True` (every surviving record is
one of the input records with both flags set), and the Synthetic
Availability Generator then overwrites `is_renting`, `is_returning` and
`is_installed` to `True` on every record of every snapshot it produces —
so stations not renting or not returning at fetch time are silently
excluded, while every displayed record shows all flags `True`. -/
theorem renting_returning_filter_invariant :
    (∀ l : List StationStatus, ∀ r ∈ query_station_status l,
      r ∈ l ∧ r.is_renting = true ∧ r.is_returning = true) ∧
    (∀ (rand : Nat → Nat) (base : List MergedRow) snap,
      materialize rand base = some snap →
      ∀ sr ∈ snap, sr.is_renting = true ∧ sr.is_returning = true ∧
        sr.is_installed = true) := by
  constructor
  · intro l r hr
    have hmem : r ∈ (l.filter (fun r => r.is_renting)).filter
        (fun r => r.is_returning) :=
      (drop_duplicates_aux_sublist [] _).subset hr
    have h2 := List.mem_filter.mp hmem
    have h1 := List.mem_filter.mp h2.1
    refine ⟨h1.1, by simpa using h1.2, by simpa using h2.2⟩
  · intro rand base snap h sr hsr
    obtain ⟨j, row, -, hasn⟩ := mem_materialize_from h sr hsr
    obtain ⟨-, -, h3, h4, h5, -⟩ := assign_availability_ok hasn
    exact ⟨h3, h4, h5⟩

/-- A status record for station `s2` that is not renting. -/
def statusC : StationStatus := ⟨"s2", false, true, true, 3, 7, 100⟩

/-- Witness for `renting_returning_filter_invariant`: in the input
`[statusA, statusC]` the non-renting `s2` record is dropped, and the
surviving `statusA` is an input record with both flags `True`; the
materialized `w1` record has all three flags overwritten to `True`. -/
theorem renting_returning_filter_invariant_witness :
    (statusA ∈ [statusA, statusC] ∧ statusA.is_renting = true ∧
      statusA.is_returning = true) ∧
    query_station_status [statusA, statusC] = [statusA] ∧
    (demoRec.is_renting = true ∧ demoRec.is_returning = true ∧
      demoRec.is_installed = true) :=
  ⟨renting_returning_filter_invariant.1 [statusA, statusC] statusA (by decide),
   by decide,
   renting_returning_filter_invariant.2 demoRand [demoRow] demoPrev
     (by decide) demoRec (by decide)⟩

section MergeLemmas

theorem statusPart_mkUnmatched (s : StationStatus) :
    (mkUnmatched s).statusPart = s := rfl

theorem statusPart_mkMatched (s : StationStatus) (i : StationInfo) :
    (mkMatched s i).statusPart = s := rfl

theorem filter_id_length_le_one (info : List StationInfo) (x : String)
    (h : info.Pairwise (fun a b => a.station_id ≠ b.station_id)) :
    (info.filter (fun i => i.station_id = x)).length ≤ 1 := by
  induction info with
  | nil => simp
  | cons i rest ih =>
    obtain ⟨hhead, htail⟩ := List.pairwise_cons.mp h
    by_cases hx : i.station_id = x
    · have hnil : rest.filter (fun j => j.station_id = x) = [] := by
        rw [List.filter_eq_nil_iff]
        intro j hj
        simp only [decide_eq_true_eq]
        intro hjx
        exact hhead j hj (hx.trans hjx.symm)
      simp [List.filter_cons, hx, hnil]
    · simpa [List.filter_cons, hx] using ih htail

end MergeLemmas

/-- Information record matching `statusA`'s station `s1`. -/
def infoB : StationInfo := ⟨"s1", "Shibuya", 35, 139, 10, some "r1"⟩

/-- A second information record that also carries `station_id = "s1"`. -/
def infoB2 : StationInfo := ⟨"s1", "Shibuya Annex", 36, 140, 12, none⟩

/-- C3 counterexample: the claim's "exactly one row per status record for
all inputs" fails when the information side repeats a `station_id`.  pandas'
left merge emits one row per matching info row, so the single status record
for `s1` joined against two `s1` info records yields two rows. -/
theorem merge_left_duplicate_info_cex :
    [statusA].length = 1 ∧
    (merge_status_info [statusA] [infoB, infoB2]).length = 2 ∧
    ¬ (merge_status_info [statusA] [infoB, infoB2]).length =
        [statusA].length := by decide

/-- C3 amended: when the information records carry pairwise-distinct
`station_id`s (as the station-information feed's data model guarantees),
reconciliation is a left outer join on `station_id`: the output has exactly
one row per status record, in status-input order (projecting each output
row back to its status fields recovers the status input verbatim), and a
status record whose `station_id` matches no information record keeps null
`name`, `lat`, `lon`, `capacity` and `region_id` — it is not dropped. -/
theorem merge_left_join_amended (status : List StationStatus)
    (info : List StationInfo)
    (hinfo : info.Pairwise (fun a b => a.station_id ≠ b.station_id)) :
    (merge_status_info status info).map MergedRow.statusPart = status ∧
    ∀ r ∈ merge_status_info status info,
      (∀ i ∈ info, i.station_id ≠ r.station_id) →
        r.name = none ∧ r.lat = none ∧ r.lon = none ∧ r.capacity = none ∧
        r.region_id = none := by
  constructor
  · induction status with
    | nil => rfl
    | cons s rest ih =>
      rw [merge_status_info, List.flatMap_cons, List.map_append]
      have hrest : (merge_status_info rest info).map MergedRow.statusPart =
          rest := ih
      rw [merge_status_info] at hrest
      rw [hrest]
      cases hf : info.filter (fun i => i.station_id = s.station_id) with
      | nil => rfl
      | cons i tl =>
        have hlen := filter_id_length_le_one info s.station_id hinfo
        rw [hf] at hlen
        have htl : tl = [] := by
          cases tl with
          | nil => rfl
          | cons a b => simp at hlen
        subst htl
        rfl
  · intro r hr hnone
    rw [merge_status_info, List.mem_flatMap] at hr
    obtain ⟨s, hs, hrf⟩ := hr
    cases hf : info.filter (fun i => i.station_id = s.station_id) with
    | nil =>
      rw [hf] at hrf
      simp only [List.mem_singleton] at hrf
      subst hrf
      exact ⟨rfl, rfl, rfl, rfl, rfl⟩
    | cons i tl =>
      rw [hf] at hrf
      simp only [List.mem_map] at hrf
      obtain ⟨i', hi', rfl⟩ := hrf
      have hi'f : i' ∈ info.filter (fun i => i.station_id = s.station_id) := by
        rw [hf]; exact hi'
      have hmem := List.mem_filter.mp hi'f
      have hid : i'.station_id = s.station_id := by
        simpa using hmem.2
      exact absurd hid (hnone i' hmem.1)

/-- Witness for `merge_left_join_amended`: joining status records for `s1`
and `s2` against the single info record for `s1` keeps both rows in order,
and the `s2` row (no info match) has all info columns null. -/
theorem merge_left_join_amended_witness :
    (merge_status_info [statusA, statusC] [infoB]).map MergedRow.statusPart =
      [statusA, statusC] ∧
    ((mkUnmatched statusC).name = none ∧ (mkUnmatched statusC).lat = none ∧
      (mkUnmatched statusC).lon = none ∧
      (mkUnmatched statusC).capacity = none ∧
      (mkUnmatched statusC).region_id = none) :=
  ⟨(merge_left_join_amended [statusA, statusC] [infoB] (by simp)).1,
   (merge_left_join_amended [statusA, statusC] [infoB] (by simp)).2
     (mkUnmatched statusC) (by decide) (by decide)⟩

section SortLemmas

variable {α : Type} (key : α → Nat)

theorem insert_desc_perm (a : α) :
    ∀ l : List α, (insert_desc_by key a l).Perm (a :: l) := by
  intro l
  induction l with
  | nil => exact List.Perm.refl _
  | cons b bs ih =>
    rw [insert_desc_by]
    by_cases h : key b ≤ key a
    · rw [if_pos h]
    · rw [if_neg h]
      exact (ih.cons b).trans (List.Perm.swap a b bs)

theorem sort_desc_perm : ∀ l : List α, (sort_desc_by key l).Perm l := by
  intro l
  induction l with
  | nil => exact List.Perm.refl _
  | cons x xs ih =>
    rw [sort_desc_by]
    exact (insert_desc_perm key x _).trans (ih.cons x)

theorem insert_desc_sorted (a : α) :
    ∀ {l : List α}, l.Pairwise (fun x y => key y ≤ key x) →
      (insert_desc_by key a l).Pairwise (fun x y => key y ≤ key x) := by
  intro l
  induction l with
  | nil => intro _; simp [insert_desc_by]
  | cons b bs ih =>
    intro h
    obtain ⟨hhead, htail⟩ := List.pairwise_cons.mp h
    rw [insert_desc_by]
    by_cases hba : key b ≤ key a
    · rw [if_pos hba]
      refine List.pairwise_cons.mpr ⟨?_, h⟩
      intro y hy
      rcases List.mem_cons.mp hy with rfl | hy'
      · exact hba
      · exact (hhead y hy').trans hba
    · rw [if_neg hba]
      refine List.pairwise_cons.mpr ⟨?_, ih htail⟩
      intro y hy
      have hy' := (insert_desc_perm key a bs).mem_iff.mp hy
      rcases List.mem_cons.mp hy' with rfl | hmem
      · exact Nat.le_of_lt (Nat.lt_of_not_le hba)
      · exact hhead y hmem

theorem sort_desc_sorted :
    ∀ l : List α, (sort_desc_by key l).Pairwise (fun x y => key y ≤ key x) := by
  intro l
  induction l with
  | nil => simp [sort_desc_by]
  | cons x xs ih =>
    rw [sort_desc_by]
    exact insert_desc_sorted key x ih

theorem insert_desc_filter (a : α) (k : Nat) :
    ∀ {l : List α}, l.Pairwise (fun x y => key y ≤ key x) →
      (insert_desc_by key a l).filter (fun x => key x = k) =
        if key a = k then a :: l.filter (fun x => key x = k)
        else l.filter (fun x => key x = k) := by
  intro l
  induction l with
  | nil =>
    intro _
    rw [insert_desc_by]
    by_cases hk : key a = k
    · rw [if_pos hk]
      simp [List.filter_cons, hk]
    · rw [if_neg hk]
      simp [List.filter_cons, hk]
  | cons b bs ih =>
    intro h
    obtain ⟨hhead, htail⟩ := List.pairwise_cons.mp h
    rw [insert_desc_by]
    by_cases hba : key b ≤ key a
    · rw [if_pos hba]
      by_cases hk : key a = k
      · rw [if_pos hk]
        simp [List.filter_cons, hk]
      · rw [if_neg hk]
        simp [List.filter_cons, hk]
    · rw [if_neg hba]
      have hab : key a < key b := Nat.lt_of_not_le hba
      rw [List.filter_cons, List.filter_cons, ih htail]
      by_cases hk : key a = k
      · have hbk : ¬ key b = k := by omega
        simp [hk, hbk]
      · simp [hk]

theorem sort_desc_stable (k : Nat) :
    ∀ l : List α, (sort_desc_by key l).filter (fun x => key x = k) =
      l.filter (fun x => key x = k) := by
  intro l
  induction l with
  | nil => rfl
  | cons x xs ih =>
    rw [sort_desc_by, insert_desc_filter key x k (sort_desc_sorted key xs),
      List.filter_cons]
    by_cases hk : key x = k
    · rw [if_pos hk, ih]
      simp [hk]
    · rw [if_neg hk, ih]
      simp [hk]

theorem pairwise_take_drop {R : α → α → Prop} {l : List α}
    (h : l.Pairwise R) (n : Nat) :
    ∀ x ∈ l.take n, ∀ y ∈ l.drop n, R x y := by
  have h' : (l.take n ++ l.drop n).Pairwise R := by
    rwa [List.take_append_drop]
  exact (List.pairwise_append.mp h').2.2

end SortLemmas

/-- A station record with the given id, bikes and capacity, used for the
concrete Top-N example. -/
def demoStation (id : String) (bikes cap : Nat) : StationRecord :=
  { station_id := id, name := none, lat := none, lon := none, capacity := cap,
    region_id := none, bikes_available := bikes, docks_available := cap - bikes,
    is_renting := true, is_returning := true, is_installed := true }

/-- A snapshot of 7 stations with bikes `[0, 1, 2, 3, 4, 5, 6]` (each of
capacity 10, so docks `[10, 9, 8, 7, 6, 5, 4]`). -/
def demo7 : List StationRecord :=
  [demoStation "t1" 0 10, demoStation "t2" 1 10, demoStation "t3" 2 10,
   demoStation "t4" 3 10, demoStation "t5" 4 10, demoStation "t6" 5 10,
   demoStation "t7" 6 10]

/-- C8: `top_bikes n` returns the `n` stations with the largest
`bikes_available` in descending order with ties broken by input order, and
`top_docks n` does the same over `docks_available`.  Concretely, on the
7-station snapshot with bikes `[0..6]`, Top-5-by-bikes has bikes
`[6, 5, 4, 3, 2]`.  In general (for each of the two keys): the selection is
the `n`-prefix of a stable descending sort; the sort is a permutation of
the snapshot; the selected rows are sorted descending; every selected row's
key is at least every unselected row's key; and rows with any fixed key
value stay in input order (filtering the sort at a key value equals
filtering the input). -/
theorem top_n_spec :
    ((top_bikes 5 demo7).map (fun s => s.bikes_available) = [6, 5, 4, 3, 2]) ∧
    ((top_docks 5 demo7).map (fun s => s.docks_available) = [10, 9, 8, 7, 6]) ∧
    (∀ (n : Nat) (l : List StationRecord),
      (top_bikes n l).Pairwise
        (fun a b => b.bikes_available ≤ a.bikes_available) ∧
      (sort_desc_by (fun s => s.bikes_available) l).Perm l ∧
      top_bikes n l = (sort_desc_by (fun s => s.bikes_available) l).take n ∧
      (∀ x ∈ top_bikes n l,
        ∀ y ∈ (sort_desc_by (fun s => s.bikes_available) l).drop n,
          y.bikes_available ≤ x.bikes_available) ∧
      (∀ k, (sort_desc_by (fun s => s.bikes_available) l).filter
            (fun s => s.bikes_available = k) =
          l.filter (fun s => s.bikes_available = k))) ∧
    (∀ (n : Nat) (l : List StationRecord),
      (top_docks n l).Pairwise
        (fun a b => b.docks_available ≤ a.docks_available) ∧
      (sort_desc_by (fun s => s.docks_available) l).Perm l ∧
      top_docks n l = (sort_desc_by (fun s => s.docks_available) l).take n ∧
      (∀ x ∈ top_docks n l,
        ∀ y ∈ (sort_desc_by (fun s => s.docks_available) l).drop n,
          y.docks_available ≤ x.docks_available) ∧
      (∀ k, (sort_desc_by (fun s => s.docks_available) l).filter
            (fun s => s.docks_available = k) =
          l.filter (fun s => s.docks_available = k))) := by
  refine ⟨by decide, by decide, fun n l => ?_, fun n l => ?_⟩
  · refine ⟨List.Pairwise.sublist (List.take_sublist n _)
        (sort_desc_sorted (fun s => s.bikes_available) l),
      sort_desc_perm (fun s => s.bikes_available) l, rfl, ?_,
      fun k => sort_desc_stable (fun s => s.bikes_available) k l⟩
    intro x hx y hy
    simp only [top_bikes, nlargest] at hx
    exact pairwise_take_drop
      (sort_desc_sorted (fun s => s.bikes_available) l) n x hx y hy
  · refine ⟨List.Pairwise.sublist (List.take_sublist n _)
        (sort_desc_sorted (fun s => s.docks_available) l),
      sort_desc_perm (fun s => s.docks_available) l, rfl, ?_,
      fun k => sort_desc_stable (fun s => s.docks_available) k l⟩
    intro x hx y hy
    simp only [top_docks, nlargest] at hx
    exact pairwise_take_drop
      (sort_desc_sorted (fun s => s.docks_available) l) n x hx y hy

/-- Witness for `top_n_spec`: on the concrete 7-station snapshot, the `t7`
station (6 bikes) is selected into the top 5 and the `t2` station (1 bike)
is left among the dropped rows, and the claimed key inequality holds
between them. -/
theorem top_n_spec_witness :
    demoStation "t7" 6 10 ∈ top_bikes 5 demo7 ∧
    demoStation "t2" 1 10 ∈
      (sort_desc_by (fun s => s.bikes_available) demo7).drop 5 ∧
    (demoStation "t2" 1 10).bikes_available ≤
      (demoStation "t7" 6 10).bikes_available :=
  ⟨by decide, by decide,
   (top_n_spec.2.2.1 5 demo7).2.2.2.1 (demoStation "t7" 6 10) (by decide)
     (demoStation "t2" 1 10) (by decide)⟩


/-- A well-shaped feed document: `{data: {stations: [...]}}` with an empty
station list. -/
def goodDoc : Json := .obj [("data", .obj [("stations", .arr [])])]

/-- A malformed feed document lacking the `data.stations` nesting. -/
def badDoc : Json := .obj [("stations", .arr [])]

/-- Supporting lemma on the document-level fetch-and-parse phase: when a
feed fetch fails (the fetch outcome is an error standing for network
failure, timeout or non-2xx) or a fetched document lacks the
`data.stations` shape, that error propagates to the caller and no station
lists are produced — empty data is never substituted — and the phase yields
the two station lists if and only if both feed documents are fetched and
parsed successfully.  (This phase alone does not yet guarantee a snapshot:
the availability generator can still fail downstream on a null capacity.) -/
theorem fetch_parse_propagation (s i : Except PipeError Json) :
    ((∃ v, fetch_pipeline s i = .ok v) ↔
      ((∃ sd sl, s = .ok sd ∧ parseStations sd = .ok sl) ∧
       (∃ idoc il, i = .ok idoc ∧ parseStations idoc = .ok il))) ∧
    (∀ e, s = .error e → fetch_pipeline s i = .error e) ∧
    (∀ sd e, s = .ok sd → parseStations sd = .error e →
      fetch_pipeline s i = .error e) ∧
    (∀ sd sl e, s = .ok sd → parseStations sd = .ok sl → i = .error e →
      fetch_pipeline s i = .error e) ∧
    (∀ sd sl idoc e, s = .ok sd → parseStations sd = .ok sl → i = .ok idoc →
      parseStations idoc = .error e → fetch_pipeline s i = .error e) ∧
    (∀ sd sl idoc il, s = .ok sd → parseStations sd = .ok sl → i = .ok idoc →
      parseStations idoc = .ok il → fetch_pipeline s i = .ok (sl, il)) := by
  refine ⟨⟨?_, ?_⟩, ?_, ?_, ?_, ?_, ?_⟩
  · rintro ⟨v, hv⟩
    cases s with
    | error e => simp [fetch_pipeline] at hv
    | ok sd =>
      cases hps : parseStations sd with
      | error e => simp [fetch_pipeline, hps] at hv
      | ok sl =>
        cases i with
        | error e => simp [fetch_pipeline, hps] at hv
        | ok idoc =>
          cases hpi : parseStations idoc with
          | error e => simp [fetch_pipeline, hps, hpi] at hv
          | ok il =>
            exact ⟨⟨sd, sl, rfl, hps⟩, ⟨idoc, il, rfl, hpi⟩⟩
  · rintro ⟨⟨sd, sl, rfl, hps⟩, ⟨idoc, il, rfl, hpi⟩⟩
    exact ⟨(sl, il), by simp [fetch_pipeline, hps, hpi]⟩
  · rintro e rfl
    rfl
  · rintro sd e rfl hps
    simp [fetch_pipeline, hps]
  · rintro sd sl e rfl hps rfl
    simp [fetch_pipeline, hps]
  · rintro sd sl idoc e rfl hps rfl hpi
    simp [fetch_pipeline, hps, hpi]
  · rintro sd sl idoc il rfl hps rfl hpi
    simp [fetch_pipeline, hps, hpi]

/-- Witness for `fetch_parse_propagation`: a failed status fetch propagates
its fetch error past a well-shaped info document, and a delivered but
malformed status document propagates a parse error; with two well-shaped
documents the pipeline succeeds with the two (empty) station lists. -/
theorem fetch_parse_propagation_witness :
    fetch_pipeline (.error .fetchError) (.ok goodDoc) = .error .fetchError ∧
    fetch_pipeline (.ok badDoc) (.ok goodDoc) = .error .parseError ∧
    fetch_pipeline (.ok goodDoc) (.ok goodDoc) = .ok ([], []) :=
  ⟨(fetch_parse_propagation (.error .fetchError) (.ok goodDoc)).2.1
      .fetchError rfl,
   (fetch_parse_propagation (.ok badDoc) (.ok goodDoc)).2.2.1
      badDoc .parseError rfl rfl,
   (fetch_parse_propagation (.ok goodDoc) (.ok goodDoc)).2.2.2.2.2
      goodDoc [] goodDoc [] rfl rfl rfl rfl⟩

/-- The full snapshot construction for an Uninitialized session (`app.py`,
lines 42-85): fetch and parse both feeds (each helper raises on any
failure, modelled by an `Except`-valued fetch outcome carrying the typed
rows of the delivered frame), shape the status rows
(`query_station_status`), left-merge with the information rows, then run
the Synthetic Availability Generator over the merged list.  The generator
itself raises on a null capacity — `random.randint(0, nan)` at `app.py`,
line 80, for a status station with no information match — so the result is
`some sess` exactly when a snapshot is stored, and `none` when any stage
raised. -/
def build_snapshot (now : Nat) (rand : Nat → Nat)
    (statusFetch : Except PipeError (List StationStatus))
    (infoFetch : Except PipeError (List StationInfo)) : Option Session :=
  match statusFetch, infoFetch with
  | .ok rawStatus, .ok info =>
    refresh now rand (merge_status_info (query_station_status rawStatus) info)
  | _, _ => none

theorem materialize_from_isSome_iff (rand : Nat → Nat) :
    ∀ (i : Nat) (rows : List MergedRow),
      (∃ snap, materialize_from rand i rows = some snap) ↔
        ∀ row ∈ rows, row.capacity ≠ none := by
  intro i rows
  induction rows generalizing i with
  | nil => simp [materialize_from]
  | cons row rest ih =>
    constructor
    · rintro ⟨snap, h⟩
      simp only [materialize_from] at h
      cases h1 : assign_availability (rand i) row with
      | none =>
        cases h2 : materialize_from rand (i + 1) rest with
        | none => rw [h1, h2] at h; cases h
        | some o => rw [h1, h2] at h; cases h
      | some sr =>
        cases h2 : materialize_from rand (i + 1) rest with
        | none => rw [h1, h2] at h; cases h
        | some o =>
          intro row' hrow'
          rcases List.mem_cons.mp hrow' with rfl | hmem
          · intro hc
            rw [assign_availability, hc] at h1
            cases h1
          · exact (ih (i + 1)).mp ⟨o, h2⟩ row' hmem
    · intro hall
      obtain ⟨snap, hsnap⟩ :=
        (ih (i + 1)).mpr (fun r hr => hall r (List.mem_cons_of_mem _ hr))
      cases hc : row.capacity with
      | none => exact absurd hc (hall row (List.mem_cons_self _ _))
      | some cap =>
        have h1 : ∃ sr, assign_availability (rand i) row = some sr := by
          rw [assign_availability, hc]
          exact ⟨_, rfl⟩
        obtain ⟨sr, h1⟩ := h1
        exact ⟨sr :: snap, by simp [materialize_from, h1, hsnap]⟩

/-- C9 counterexample: both feed documents fetched and parsed successfully
— the status feed delivered the single renting-and-returning record
`statusA` and the information feed delivered an empty station list, so
`statusA`'s station has no information match — yet no snapshot is
produced: the merged row has null capacity and the generator's
`random.randint(0, nan)` raises (`app.py`, line 80).  This refutes the
claim's "a snapshot is produced if and only if both feed documents are
fetched and parsed successfully": at this input the right-hand side holds
and the left-hand side fails. -/
theorem snapshot_production_cex :
    ¬ ((∃ sess, build_snapshot 0 demoRand
          (.ok [statusA]) (.ok []) = some sess) ↔
        ((∃ rs, (Except.ok [statusA] :
            Except PipeError (List StationStatus)) = .ok rs) ∧
         (∃ ri, (Except.ok [] :
            Except PipeError (List StationInfo)) = .ok ri))) := by
  intro h
  have hnone : build_snapshot 0 demoRand (.ok [statusA]) (.ok []) = none := by
    decide
  obtain ⟨sess, hs⟩ := h.mpr ⟨⟨[statusA], rfl⟩, ⟨[], rfl⟩⟩
  rw [hnone] at hs
  cases hs

/-- C9 amended: when a feed fetch fails (network failure, timeout,
non-2xx) or a fetched document lacks the expected shape, the error
propagates and no snapshot is produced — empty data is never silently
substituted — and a snapshot is produced ONLY IF both feed documents are
fetched and parsed successfully.  The converse fails: with both feeds
delivered, a snapshot is produced if and only if additionally every
surviving status station has an integer capacity after the left merge,
i.e. a match in the information feed; otherwise the generator raises
(`random.randint(0, nan)`) and no snapshot is produced. -/
theorem snapshot_production_amended (now : Nat) (rand : Nat → Nat)
    (s : Except PipeError (List StationStatus))
    (i : Except PipeError (List StationInfo)) :
    (∀ e, s = .error e → build_snapshot now rand s i = none) ∧
    (∀ e, i = .error e → build_snapshot now rand s i = none) ∧
    (∀ sess, build_snapshot now rand s i = some sess →
      (∃ rs, s = .ok rs) ∧ (∃ ri, i = .ok ri)) ∧
    (∀ rs ri, s = .ok rs → i = .ok ri →
      ((∃ sess, build_snapshot now rand s i = some sess) ↔
        ∀ row ∈ merge_status_info (query_station_status rs) ri,
          row.capacity ≠ none)) := by
  refine ⟨?_, ?_, ?_, ?_⟩
  · rintro e rfl
    rfl
  · rintro e rfl
    cases s with
    | error e' => rfl
    | ok rs => rfl
  · intro sess hsess
    cases s with
    | error e => cases hsess
    | ok rs =>
      cases i with
      | error e => cases hsess
      | ok ri => exact ⟨⟨rs, rfl⟩, ⟨ri, rfl⟩⟩
  · rintro rs ri rfl rfl
    have hbuild : build_snapshot now rand (.ok rs) (.ok ri) =
        refresh now rand (merge_status_info (query_station_status rs) ri) :=
      rfl
    rw [hbuild]
    constructor
    · rintro ⟨sess, hs⟩
      cases hm : materialize rand
          (merge_status_info (query_station_status rs) ri) with
      | none => rw [refresh, hm] at hs; cases hs
      | some snap =>
        exact (materialize_from_isSome_iff rand 0 _).mp ⟨snap, hm⟩
    · intro hall
      obtain ⟨snap, hsnap⟩ := (materialize_from_isSome_iff rand 0 _).mpr hall
      refine ⟨⟨now, snap⟩, ?_⟩
      rw [refresh, materialize, hsnap]
      rfl

/-- Witness for `snapshot_production_amended`: a failed status fetch
produces no snapshot, and with both feeds delivered (`[statusA]` against
the matching info record `infoB`) the success condition is the
all-capacities-present criterion. -/
theorem snapshot_production_amended_witness :
    build_snapshot 0 demoRand
      (.error .fetchError) (.ok [infoB]) = none ∧
    ((∃ sess, build_snapshot 0 demoRand
        (.ok [statusA]) (.ok [infoB]) = some sess) ↔
      ∀ row ∈ merge_status_info (query_station_status [statusA]) [infoB],
        row.capacity ≠ none) :=
  ⟨(snapshot_production_amended 0 demoRand (.error .fetchError)
      (.ok [infoB])).1 .fetchError rfl,
   (snapshot_production_amended 0 demoRand (.ok [statusA])
      (.ok [infoB])).2.2.2 [statusA] [infoB] rfl rfl⟩
